import Mathlib

/-!
Shallow embedding of src/pfmsoft/rate_limit/rate_limit.py.

Times are modelled as mathematical integers (nanosecond readings of
perf_counter_ns) for the interval-based RateLimit class, and as rationals
(seconds, the exact idealisation of datetime/timedelta arithmetic) for the
rate-based RateLimiter class.  Python int() truncates toward zero, which is
Int.tdiv on the numerator and denominator of a rational.  Side-effecting
methods become state-passing functions; the implicit perf_counter_ns() and
datetime.now() readings become explicit time parameters.  The sync and async
execution wrappers are modelled with an explicit event trace recording the
suspension, the invocation of the wrapped operation, and the update of
last_called; the wrapped operation is a value of Except, an error modelling a
raised exception.
-/

/-- Truncation of a rational toward zero, the semantics of Python int(). -/
def ratTrunc (q : ℚ) : Int := q.num.tdiv q.den

/-- State of the RateLimit class: limit_interval, last_called, total_delay,
total_requests, all Python ints (rate_limit.py lines 29-33). -/
structure RateLimit where
  limit_interval : Int
  last_called : Int
  total_delay : Int
  total_requests : Int
  deriving Repr, DecidableEq

/-- RateLimit.__init__(limit_interval): last_called, total_delay and
total_requests start at zero. -/
def RateLimit.init (limit_interval : Int) : RateLimit :=
  { limit_interval := limit_interval, last_called := 0,
    total_delay := 0, total_requests := 0 }

/-- RateLimit.set_interval (lines 85-97): when the current limit_interval is
at most 0 the interval is pinned to 0 and the requested value is ignored;
otherwise the requested value is stored unchanged. -/
def RateLimit.set_interval (s : RateLimit) (interval : Int) : RateLimit :=
  if s.limit_interval ≤ 0 then { s with limit_interval := 0 }
  else { s with limit_interval := interval }

/-- RateLimit.increase_interval_percentage (lines 47-54):
set_interval(int(limit_interval * (1 + delta))). -/
def RateLimit.increase_interval_percentage (s : RateLimit) (delta : ℚ) : RateLimit :=
  s.set_interval (ratTrunc ((s.limit_interval : ℚ) * (1 + delta)))

/-- RateLimit.increase_interval (lines 56-64):
set_interval(limit_interval + delta). -/
def RateLimit.increase_interval (s : RateLimit) (delta : Int) : RateLimit :=
  s.set_interval (s.limit_interval + delta)

/-- RateLimit.decrease_interval_percentage (lines 66-73):
set_interval(int(limit_interval * (1 - delta))). -/
def RateLimit.decrease_interval_percentage (s : RateLimit) (delta : ℚ) : RateLimit :=
  s.set_interval (ratTrunc ((s.limit_interval : ℚ) * (1 - delta)))

/-- RateLimit.decrease_interval (lines 75-83):
set_interval(limit_interval - delta). -/
def RateLimit.decrease_interval (s : RateLimit) (delta : Int) : RateLimit :=
  s.set_interval (s.limit_interval - delta)

/-- RateLimit.check_for_wait (lines 99-112).  The perf_counter_ns() reading is
the explicit parameter now.  Returns the wait together with the updated
state: when since_last_called ≥ limit_interval the wait is 0 and the state is
untouched; otherwise the wait is limit_interval - since_last_called, added to
total_delay, and total_requests is incremented. -/
def RateLimit.check_for_wait (s : RateLimit) (now : Int) : Int × RateLimit :=
  let since_last_called := now - s.last_called
  if since_last_called ≥ s.limit_interval then (0, s)
  else
    let wait := s.limit_interval - since_last_called
    (wait, { s with total_delay := s.total_delay + wait,
                    total_requests := s.total_requests + 1 })

/-- RateLimit._update_last_called (lines 114-115): stores the current
perf_counter_ns() reading in last_called. -/
def RateLimit.update_last_called (s : RateLimit) (now : Int) : RateLimit :=
  { s with last_called := now }

/-- RateLimit.seconds_to_nanoseconds (lines 117-121): int(seconds * 1e9). -/
def seconds_to_nanoseconds (seconds : ℚ) : Int :=
  ratTrunc (seconds * 1000000000)

/-- RateLimit.nanoseconds_to_seconds (lines 123-135): nanos / 1e9 as a float,
idealised as an exact rational. -/
def nanoseconds_to_seconds (nanos : Int) : ℚ :=
  (nanos : ℚ) / 1000000000

/-- Observable steps of the execution wrappers, in order of occurrence:
the sleep (sync) or asyncio.sleep (async) for the computed wait, the
invocation of the wrapped callable, and the _update_last_called call. -/
inductive WrapEvent where
  | slept (seconds : ℚ)
  | invoked
  | marked
  deriving Repr, DecidableEq

/-- SyncRateLimit.limit (lines 186-206).  nowCheck is the perf_counter_ns()
reading inside check_for_wait, nowDone the one inside _update_last_called.
The wrapped call func either returns a value or raises; a raise propagates
and skips _update_last_called, leaving the state as check_for_wait left it. -/
def SyncRateLimit.limit {ε α : Type} (s : RateLimit) (nowCheck nowDone : Int)
    (func : Except ε α) : Except ε α × RateLimit × List WrapEvent :=
  let checked := s.check_for_wait nowCheck
  match func with
  | Except.error e =>
      (Except.error e, checked.2,
        [WrapEvent.slept (nanoseconds_to_seconds checked.1), WrapEvent.invoked])
  | Except.ok v =>
      (Except.ok v, checked.2.update_last_called nowDone,
        [WrapEvent.slept (nanoseconds_to_seconds checked.1), WrapEvent.invoked,
          WrapEvent.marked])

/-- AsyncRateLimit.limit (lines 154-174): identical sequencing to the sync
wrapper once the await suspension points are erased. -/
def AsyncRateLimit.limit {ε α : Type} (s : RateLimit) (nowCheck nowDone : Int)
    (func : Except ε α) : Except ε α × RateLimit × List WrapEvent :=
  let checked := s.check_for_wait nowCheck
  match func with
  | Except.error e =>
      (Except.error e, checked.2,
        [WrapEvent.slept (nanoseconds_to_seconds checked.1), WrapEvent.invoked])
  | Except.ok v =>
      (Except.ok v, checked.2.update_last_called nowDone,
        [WrapEvent.slept (nanoseconds_to_seconds checked.1), WrapEvent.invoked,
          WrapEvent.marked])

/-- One state-mutating operation on a RateLimit, with its argument (and, for
the time-reading methods, the perf_counter_ns() value observed). -/
inductive LimiterOp where
  | set_interval (v : Int)
  | increase_interval (d : Int)
  | decrease_interval (d : Int)
  | increase_interval_percentage (f : ℚ)
  | decrease_interval_percentage (f : ℚ)
  | check_for_wait (now : Int)
  | update_last_called (now : Int)

/-- The state transition of one operation. -/
def LimiterOp.apply (op : LimiterOp) (s : RateLimit) : RateLimit :=
  match op with
  | .set_interval v => s.set_interval v
  | .increase_interval d => s.increase_interval d
  | .decrease_interval d => s.decrease_interval d
  | .increase_interval_percentage f => s.increase_interval_percentage f
  | .decrease_interval_percentage f => s.decrease_interval_percentage f
  | .check_for_wait now => (s.check_for_wait now).2
  | .update_last_called now => s.update_last_called now

/-- Whether the operation is one of the five interval-adjustment methods. -/
def LimiterOp.isAdj : LimiterOp → Bool
  | .set_interval _ => true
  | .increase_interval _ => true
  | .decrease_interval _ => true
  | .increase_interval_percentage _ => true
  | .decrease_interval_percentage _ => true
  | .check_for_wait _ => false
  | .update_last_called _ => false

/-- Run a sequence of operations left to right. -/
def runOps (s : RateLimit) (ops : List LimiterOp) : RateLimit :=
  ops.foldl (fun a op => op.apply a) s

/-- State of the rate-based RateLimiter class (rate_limit.py lines 209-260,
present in the source only as commented-out code and specified in the spec).
Durations and timestamps are rationals in seconds, the exact idealisation of
the float and datetime/timedelta arithmetic of the source; interval is the
private field _interval. -/
structure RateLimiter where
  rate : ℚ
  period : ℚ
  interval : ℚ
  last_request : ℚ
  total_delay : ℚ
  total_requests : Int
  deriving Repr, DecidableEq

/-- RateLimiter._set_interval (lines 246-253): interval := period / rate;
the ZeroDivisionError raised at rate = 0 is caught and reduced to a zero
interval. -/
def RateLimiter.set_interval (s : RateLimiter) : RateLimiter :=
  if s.rate = 0 then { s with interval := 0 }
  else { s with interval := s.period / s.rate }

/-- RateLimiter.__init__(rate, period) (lines 216-223); now is the
datetime.now() reading stored in last_request. -/
def RateLimiter.init (rate period now : ℚ) : RateLimiter :=
  RateLimiter.set_interval
    { rate := rate, period := period, interval := 0,
      last_request := now, total_delay := 0, total_requests := 0 }

/-- RateLimiter.get_delay (lines 225-236).  Increments total_requests
unconditionally, computes next_call = last_request + interval, issues a zero
delay when next_call < now and next_call - now otherwise, advances
last_request to next_call in both cases, and adds the delay to total_delay. -/
def RateLimiter.get_delay (s : RateLimiter) (now : ℚ) : ℚ × RateLimiter :=
  let s1 : RateLimiter := { s with total_requests := s.total_requests + 1 }
  let next_call := s1.last_request + s1.interval
  let delay := if next_call < now then 0 else next_call - now
  (delay, { s1 with last_request := next_call, total_delay := s1.total_delay + delay })

/-- RateLimiter.adjust_rate (lines 238-240): rate := rate + change, then
_set_interval. -/
def RateLimiter.adjust_rate (s : RateLimiter) (change : ℚ) : RateLimiter :=
  RateLimiter.set_interval { s with rate := s.rate + change }

/-- RateLimiter.adjust_rate_multiplier (lines 242-244):
rate := int(rate * multiplier), then _set_interval. -/
def RateLimiter.adjust_rate_multiplier (s : RateLimiter) (multiplier : ℚ) : RateLimiter :=
  RateLimiter.set_interval { s with rate := (ratTrunc (s.rate * multiplier) : ℚ) }

/-- The delays issued by consecutive get_delay calls at the given sequence of
datetime.now() readings, with the final state. -/
def RateLimiter.run_delays (s : RateLimiter) (nows : List ℚ) : List ℚ × RateLimiter :=
  match nows with
  | [] => ([], s)
  | t :: ts =>
      let r := s.get_delay t
      let rest := r.2.run_delays ts
      (r.1 :: rest.1, rest.2)

example : ((RateLimit.init 1000).increase_interval_percentage (1/4)).limit_interval = 1250 := by
  norm_num [RateLimit.increase_interval_percentage, RateLimit.set_interval,
    RateLimit.init, ratTrunc]

example : ((RateLimit.init 1000).decrease_interval_percentage (1/4)).limit_interval = 750 := by
  norm_num [RateLimit.decrease_interval_percentage, RateLimit.set_interval,
    RateLimit.init, ratTrunc]

example : ((RateLimit.init 1000).set_interval (-5)).limit_interval = -5 := by
  decide

example : ((RateLimit.init 100).check_for_wait 30).1 = 70 := by decide

example : (RateLimiter.init 2 1 0).interval = 1/2 := by
  norm_num [RateLimiter.init, RateLimiter.set_interval]

example : ((RateLimiter.init 2 1 0).run_delays [0, 0, 0]).1 = [1/2, 1, 3/2] := by
  norm_num [RateLimiter.init, RateLimiter.set_interval, RateLimiter.run_delays,
    RateLimiter.get_delay]

theorem RateLimit.set_interval_nonpos (s : RateLimit) (v : Int)
    (h : s.limit_interval ≤ 0) : (s.set_interval v).limit_interval = 0 := by
  simp [RateLimit.set_interval, h]

theorem RateLimit.check_for_wait_last_called (s : RateLimit) (now : Int) :
    (s.check_for_wait now).2.last_called = s.last_called := by
  simp only [RateLimit.check_for_wait]
  split <;> rfl

theorem LimiterOp.apply_adj_nonpos (op : LimiterOp) (s : RateLimit)
    (h : s.limit_interval ≤ 0) (ha : op.isAdj = true) :
    (op.apply s).limit_interval = 0 := by
  cases op <;> simp only [LimiterOp.apply, RateLimit.increase_interval,
    RateLimit.decrease_interval, RateLimit.increase_interval_percentage,
    RateLimit.decrease_interval_percentage] <;>
    first
      | exact RateLimit.set_interval_nonpos _ _ h
      | simp [LimiterOp.isAdj] at ha

theorem runOps_adj_zero (ops : List LimiterOp) (s : RateLimit)
    (h : s.limit_interval = 0) (ha : ∀ o ∈ ops, o.isAdj = true) :
    (runOps s ops).limit_interval = 0 := by
  induction ops generalizing s with
  | nil => simpa [runOps] using h
  | cons op rest ih =>
      have h1 : (op.apply s).limit_interval = 0 :=
        LimiterOp.apply_adj_nonpos op s (le_of_eq h) (ha op (List.mem_cons_self op rest))
      have h2 := ih (op.apply s) h1 (fun o ho => ha o (List.mem_cons_of_mem op ho))
      simpa [runOps, List.foldl_cons] using h2

theorem apply_counters_mono (op : LimiterOp) (s : RateLimit) :
    s.total_delay ≤ (op.apply s).total_delay ∧
    s.total_requests ≤ (op.apply s).total_requests := by
  cases op <;>
    simp only [LimiterOp.apply, RateLimit.set_interval, RateLimit.increase_interval,
      RateLimit.decrease_interval, RateLimit.increase_interval_percentage,
      RateLimit.decrease_interval_percentage, RateLimit.update_last_called,
      RateLimit.check_for_wait] <;>
    (try split) <;> constructor <;> simp <;> omega

theorem runOps_counters_mono (ops : List LimiterOp) (s : RateLimit) :
    s.total_delay ≤ (runOps s ops).total_delay ∧
    s.total_requests ≤ (runOps s ops).total_requests := by
  induction ops generalizing s with
  | nil => simp [runOps]
  | cons op rest ih =>
      have h1 := apply_counters_mono op s
      have h2 := ih (op.apply s)
      simp only [runOps, List.foldl_cons] at h2 ⊢
      exact ⟨le_trans h1.1 h2.1, le_trans h1.2 h2.2⟩

theorem RateLimiter.get_delay_zero_interval (s : RateLimiter) (t : ℚ)
    (hi : s.interval = 0) (hm : s.last_request ≤ t) :
    (s.get_delay t).1 = 0 ∧ (s.get_delay t).2.last_request = s.last_request ∧
    (s.get_delay t).2.interval = 0 := by
  unfold RateLimiter.get_delay
  simp only [hi, add_zero]
  split <;> simp_all <;> linarith

theorem RateLimiter.run_delays_zero_interval (nows : List ℚ) (s : RateLimiter)
    (hi : s.interval = 0) (hm : ∀ t ∈ nows, s.last_request ≤ t) :
    (s.run_delays nows).1 = List.replicate nows.length 0 := by
  induction nows generalizing s with
  | nil => simp [RateLimiter.run_delays]
  | cons t ts ih =>
      obtain ⟨h1, h2, h3⟩ :=
        s.get_delay_zero_interval t hi (hm t (List.mem_cons_self t ts))
      have hrest := ih (s.get_delay t).2 h3
        (fun u hu => h2 ▸ hm u (List.mem_cons_of_mem t hu))
      simp [RateLimiter.run_delays, h1, hrest, List.replicate_succ]

/-- C1: for every RateLimit state with interval I and last-called time L and
every current time T with elapsed E = T - L, check_for_wait returns 0 and
leaves total_delay and total_requests unchanged when E ≥ I, and otherwise
returns exactly I - E, adds I - E to total_delay and 1 to total_requests;
in neither case does it modify last_called. -/
theorem c1_check_for_wait_spec (s : RateLimit) (now : Int) :
    (now - s.last_called ≥ s.limit_interval →
      (s.check_for_wait now).1 = 0 ∧
      (s.check_for_wait now).2.total_delay = s.total_delay ∧
      (s.check_for_wait now).2.total_requests = s.total_requests) ∧
    (now - s.last_called < s.limit_interval →
      (s.check_for_wait now).1 = s.limit_interval - (now - s.last_called) ∧
      (s.check_for_wait now).2.total_delay
        = s.total_delay + (s.limit_interval - (now - s.last_called)) ∧
      (s.check_for_wait now).2.total_requests = s.total_requests + 1) ∧
    (s.check_for_wait now).2.last_called = s.last_called := by
  refine ⟨fun h => ?_, fun h => ?_, s.check_for_wait_last_called now⟩
  · simp [RateLimit.check_for_wait, h]
  · simp [RateLimit.check_for_wait, not_le.mpr h, le_of_lt h]

/-- C2: evaluation of set_interval at the failing input of the clamping
claim.  With a current interval of 1000 (positive), requesting the interval
-5 stores -5 itself: the value is not rounded to zero, so limit_interval is
negative after the operation, contradicting the docstring of set_interval. -/
theorem c2_set_interval_accepts_negative :
    ((RateLimit.init 1000).set_interval (-5)).limit_interval = -5 := by decide

/-- C3: when the current limit_interval is at most 0, set_interval stores 0
for every requested value, positive or negative. -/
theorem c3_set_interval_pinned (s : RateLimit) (v : Int)
    (h : s.limit_interval ≤ 0) : (s.set_interval v).limit_interval = 0 := by
  simp [RateLimit.set_interval, h]

/-- Witness for C3: a limiter at interval 0 stays at 0 both under a negative
and under a positive requested value. -/
theorem c3_set_interval_pinned_witness :
    ((RateLimit.init 0).set_interval (-7)).limit_interval = 0 ∧
    ((RateLimit.init 0).set_interval 500).limit_interval = 0 :=
  ⟨c3_set_interval_pinned (RateLimit.init 0) (-7) (by decide),
    c3_set_interval_pinned (RateLimit.init 0) 500 (by decide)⟩

/-- C4: a wrapped operation that raises propagates its fault unchanged
through both the sync and the async limit wrapper, last_called is exactly
what it was before the call, and the _update_last_called step (the marked
event) never happens on the fault path. -/
theorem c4_fault_propagates {ε α : Type} (s : RateLimit) (nowCheck nowDone : Int)
    (e : ε) :
    (SyncRateLimit.limit s nowCheck nowDone (Except.error e : Except ε α)).1
      = Except.error e ∧
    (SyncRateLimit.limit s nowCheck nowDone
      (Except.error e : Except ε α)).2.1.last_called = s.last_called ∧
    WrapEvent.marked ∉
      (SyncRateLimit.limit s nowCheck nowDone (Except.error e : Except ε α)).2.2 ∧
    (AsyncRateLimit.limit s nowCheck nowDone (Except.error e : Except ε α)).1
      = Except.error e ∧
    (AsyncRateLimit.limit s nowCheck nowDone
      (Except.error e : Except ε α)).2.1.last_called = s.last_called ∧
    WrapEvent.marked ∉
      (AsyncRateLimit.limit s nowCheck nowDone (Except.error e : Except ε α)).2.2 := by
  refine ⟨rfl, ?_, ?_, rfl, ?_, ?_⟩ <;>
    simp [SyncRateLimit.limit, AsyncRateLimit.limit,
      RateLimit.check_for_wait_last_called]

/-- C5: on a normal return the limit wrapper (sync and async) computes the
wait with check_for_wait, sleeps for that duration, invokes the operation,
records the current time in last_called and hands back the operation result
unmodified, in exactly that order. -/
theorem c5_limit_sequence {ε α : Type} (s : RateLimit) (nowCheck nowDone : Int)
    (v : α) :
    SyncRateLimit.limit s nowCheck nowDone (Except.ok v : Except ε α)
      = (Except.ok v, (s.check_for_wait nowCheck).2.update_last_called nowDone,
          [WrapEvent.slept (nanoseconds_to_seconds (s.check_for_wait nowCheck).1),
            WrapEvent.invoked, WrapEvent.marked]) ∧
    (SyncRateLimit.limit s nowCheck nowDone
      (Except.ok v : Except ε α)).2.1.last_called = nowDone ∧
    AsyncRateLimit.limit s nowCheck nowDone (Except.ok v : Except ε α)
      = (Except.ok v, (s.check_for_wait nowCheck).2.update_last_called nowDone,
          [WrapEvent.slept (nanoseconds_to_seconds (s.check_for_wait nowCheck).1),
            WrapEvent.invoked, WrapEvent.marked]) := by
  exact ⟨rfl, rfl, rfl⟩

/-- C6: on a positive current interval the percentage operations set the
interval to the integer truncation of I * (1 + f) and I * (1 - f), routed
through set_interval; on interval 1000, increase by 0.25 yields 1250 and
decrease by 0.25 yields 750. -/
theorem c6_percentage_adjustment (s : RateLimit) (f : ℚ)
    (h : 0 < s.limit_interval) :
    (s.increase_interval_percentage f).limit_interval
      = ratTrunc ((s.limit_interval : ℚ) * (1 + f)) ∧
    (s.decrease_interval_percentage f).limit_interval
      = ratTrunc ((s.limit_interval : ℚ) * (1 - f)) ∧
    ((RateLimit.init 1000).increase_interval_percentage (1/4)).limit_interval
      = 1250 ∧
    ((RateLimit.init 1000).decrease_interval_percentage (1/4)).limit_interval
      = 750 := by
  refine ⟨?_, ?_, ?_, ?_⟩
  · simp [RateLimit.increase_interval_percentage, RateLimit.set_interval,
      not_le.mpr h]
  · simp [RateLimit.decrease_interval_percentage, RateLimit.set_interval,
      not_le.mpr h]
  · norm_num [RateLimit.increase_interval_percentage, RateLimit.set_interval,
      RateLimit.init, ratTrunc]
  · norm_num [RateLimit.decrease_interval_percentage, RateLimit.set_interval,
      RateLimit.init, ratTrunc]

/-- Witness for C6: the theorem applied at interval 1000 and fraction 1/4. -/
theorem c6_percentage_adjustment_witness :
    ((RateLimit.init 1000).increase_interval_percentage (1/4)).limit_interval
      = 1250 ∧
    ((RateLimit.init 1000).decrease_interval_percentage (1/4)).limit_interval
      = 750 :=
  ⟨(c6_percentage_adjustment (RateLimit.init 1000) (1/4) (by decide)).2.2.1,
    (c6_percentage_adjustment (RateLimit.init 1000) (1/4) (by decide)).2.2.2⟩

/-- C7: over every sequence of operations, total_delay and total_requests
never decrease; every interval-adjustment operation and update_last_called
leaves both counters unchanged, and so does check_for_wait in its zero-wait
branch (elapsed at least the interval). -/
theorem c7_counters_monotone (s : RateLimit) (ops : List LimiterOp)
    (v d now : Int) (f : ℚ) :
    (s.total_delay ≤ (runOps s ops).total_delay ∧
      s.total_requests ≤ (runOps s ops).total_requests) ∧
    ((s.set_interval v).total_delay = s.total_delay ∧
      (s.set_interval v).total_requests = s.total_requests) ∧
    ((s.increase_interval d).total_delay = s.total_delay ∧
      (s.increase_interval d).total_requests = s.total_requests) ∧
    ((s.decrease_interval d).total_delay = s.total_delay ∧
      (s.decrease_interval d).total_requests = s.total_requests) ∧
    ((s.increase_interval_percentage f).total_delay = s.total_delay ∧
      (s.increase_interval_percentage f).total_requests = s.total_requests) ∧
    ((s.decrease_interval_percentage f).total_delay = s.total_delay ∧
      (s.decrease_interval_percentage f).total_requests = s.total_requests) ∧
    ((s.update_last_called now).total_delay = s.total_delay ∧
      (s.update_last_called now).total_requests = s.total_requests) ∧
    (now - s.last_called ≥ s.limit_interval →
      (s.check_for_wait now).2.total_delay = s.total_delay ∧
      (s.check_for_wait now).2.total_requests = s.total_requests) := by
  refine ⟨runOps_counters_mono ops s, ?_, ?_, ?_, ?_, ?_, ?_, fun h => ?_⟩ <;>
    simp [RateLimit.set_interval, RateLimit.increase_interval,
      RateLimit.decrease_interval, RateLimit.increase_interval_percentage,
      RateLimit.decrease_interval_percentage, RateLimit.update_last_called,
      RateLimit.check_for_wait] <;>
    split <;> simp

/-- C8: get_delay increments total_requests unconditionally; with
next_call = last_request + interval the delay is 0 when next_call is already
in the past and next_call - now otherwise; last_request advances to
next_call in both cases, and the delay is added to total_delay. -/
theorem c8_get_delay_spec (s : RateLimiter) (now : ℚ) :
    (s.get_delay now).2.total_requests = s.total_requests + 1 ∧
    (s.last_request + s.interval < now → (s.get_delay now).1 = 0) ∧
    (¬ s.last_request + s.interval < now →
      (s.get_delay now).1 = s.last_request + s.interval - now) ∧
    (s.get_delay now).2.last_request = s.last_request + s.interval ∧
    (s.get_delay now).2.total_delay = s.total_delay + (s.get_delay now).1 := by
  refine ⟨?_, fun h => ?_, fun h => ?_, ?_, ?_⟩
  · simp [RateLimiter.get_delay]
  · simp [RateLimiter.get_delay, h]
  · simp [RateLimiter.get_delay, h]
  · simp [RateLimiter.get_delay]
  · by_cases hc : s.last_request + s.interval < now <;>
      simp [RateLimiter.get_delay, hc]

/-- C9: a rate of zero never faults and yields interval 0 (the caught
division fault reduced to a zero-interval fallback, here the explicit
rate = 0 branch of set_interval), at construction, after adjust_rate, and
after adjust_rate_multiplier; and with interval 0 every subsequent get_delay
call issues a zero delay as long as now never precedes last_request. -/
theorem c9_zero_rate_no_fault (s : RateLimiter) (change multiplier period now : ℚ)
    (nows : List ℚ) :
    (RateLimiter.init 0 period now).interval = 0 ∧
    (s.rate + change = 0 → (s.adjust_rate change).interval = 0) ∧
    (ratTrunc (s.rate * multiplier) = 0 →
      (s.adjust_rate_multiplier multiplier).interval = 0) ∧
    (s.interval = 0 → (∀ t ∈ nows, s.last_request ≤ t) →
      (s.run_delays nows).1 = List.replicate nows.length 0) := by
  refine ⟨?_, fun h => ?_, fun h => ?_, fun hi hm => ?_⟩
  · simp [RateLimiter.init, RateLimiter.set_interval]
  · simp [RateLimiter.adjust_rate, RateLimiter.set_interval, h]
  · simp [RateLimiter.adjust_rate_multiplier, RateLimiter.set_interval, h]
  · exact RateLimiter.run_delays_zero_interval nows s hi hm

/-- C10: the nonpositive-interval state is absorbing: from a state with
limit_interval at most 0, the first interval-adjustment operation leaves the
interval at exactly 0 and every further sequence of adjustment operations
keeps it at exactly 0, so no adjustment sequence restores a positive
interval. -/
theorem c10_zero_interval_absorbing (s : RateLimit) (op : LimiterOp)
    (ops : List LimiterOp) (h : s.limit_interval ≤ 0)
    (hop : op.isAdj = true) (hops : ∀ o ∈ ops, o.isAdj = true) :
    (op.apply s).limit_interval = 0 ∧
    (runOps (op.apply s) ops).limit_interval = 0 := by
  have h1 : (op.apply s).limit_interval = 0 := LimiterOp.apply_adj_nonpos op s h hop
  exact ⟨h1, runOps_adj_zero ops (op.apply s) h1 hops⟩

/-- Witness for C10: from interval -2, requesting 500 gives 0, and a further
increase by 100 still gives 0. -/
theorem c10_zero_interval_absorbing_witness :
    ((LimiterOp.set_interval 500).apply (RateLimit.init (-2))).limit_interval = 0 ∧
    (runOps ((LimiterOp.set_interval 500).apply (RateLimit.init (-2)))
      [LimiterOp.increase_interval 100]).limit_interval = 0 :=
  c10_zero_interval_absorbing (RateLimit.init (-2)) (LimiterOp.set_interval 500)
    [LimiterOp.increase_interval 100] (by decide) (by decide)
    (by simp [LimiterOp.isAdj])
